import Mathlib

/-!
Verification development for the promabbix validation engine
(`src/promabbix/core/validation.py`).

The configuration values handled by the validator are already-parsed
YAML/JSON trees; we embed them as the inductive type `Json`.  Python
dictionary access (`d.get`), iteration, truthiness and string sorting are
embedded by small helper functions; dynamic type failures (`AttributeError`,
`TypeError`) are surfaced through the `Except PyErr` monad, and a raised
`ValidationError` is the other constructor of `PyErr`.  All definitions are
translated from the source file; the one exception, marked
`Modelled from the spec:`, stands in for the structural schema checks whose
data (the bundled `schemas/unified.json` document interpreted by the
third-party `jsonschema` engine) is not part of the embedded source tree.
-/

inductive Json where
  | null : Json
  | bool (b : Bool) : Json
  | num (n : Int) : Json
  | str (s : String) : Json
  | arr (elts : List Json) : Json
  | obj (fields : List (String × Json)) : Json

/-- Python truthiness (`bool(x)`) on a parsed JSON value. -/
def pyTruthy : Json → Bool
  | .null => false
  | .bool b => b
  | .num n => n != 0
  | .str s => s != ""
  | .arr elts => !elts.isEmpty
  | .obj fields => !fields.isEmpty

/-- Truthiness of an optional value (`x.get(k)` results): `None` is falsy. -/
def pyTruthyOpt : Option Json → Bool
  | some v => pyTruthy v
  | none => false

/-- Truthiness of an optional string field such as `self.path`. -/
def pyTruthyOptStr : Option String → Bool
  | some s => s != ""
  | none => false

/-- The structured exception type of `validation.py` (`class ValidationError`).
`excStr` records the argument passed to `Exception.__init__`, i.e. what
`str(e)` renders for a caller. -/
structure ValidationError where
  message : String
  path : Option String
  suggestions : List String
  excStr : String
deriving DecidableEq, Repr

/-- Python-level failure of a validation call: either a raised
`ValidationError` or a dynamic type failure (`AttributeError`/`TypeError`). -/
inductive PyErr where
  | validationError (e : ValidationError) : PyErr
  | typeErr (msg : String) : PyErr
deriving DecidableEq, Repr

/-- Python `str.join` over a list of parts (`sep.join(parts)`). -/
def pyJoin (sep : String) : List String → String
  | [] => ""
  | p :: rest => rest.foldl (fun acc x => acc ++ sep ++ x) p

/-- Rendering of `ValidationError.format_message`: the message, an optional
`Path:` line (only for a truthy path) and an optional `Suggestions:` block,
joined by newlines. -/
def ValidationError.format_message (e : ValidationError) : String :=
  let parts : List String := [e.message]
  let parts := if pyTruthyOptStr e.path then parts ++ ["Path: " ++ e.path.getD ""] else parts
  let parts :=
    if e.suggestions.isEmpty then parts
    else parts ++ ("Suggestions:" :: e.suggestions.map fun s => "  - " ++ s)
  pyJoin "\n" parts

/-- Constructor semantics of `ValidationError.__init__`: a `None` suggestions
argument is normalised to the empty list, and `Exception.__init__` receives
the already-formatted message (so `str(e)` is the full rendering). -/
def ValidationError.init (message : String) (path : Option String)
    (suggestionsArg : Option (List String)) : ValidationError :=
  let pre : ValidationError :=
    { message := message, path := path, suggestions := suggestionsArg.getD [], excStr := "" }
  { pre with excStr := pre.format_message }

/-- Python `d.get(key)`: `None` when absent, `AttributeError` when the
receiver is not a dictionary. -/
def pyGetOpt : Json → String → Except PyErr (Option Json)
  | .obj fields, key => .ok (fields.lookup key)
  | _, _ => .error (.typeErr "AttributeError: object has no attribute get")

/-- Python `d.get(key, default)`. -/
def pyGetD (j : Json) (key : String) (dflt : Json) : Except PyErr Json := do
  let v ← pyGetOpt j key
  pure (v.getD dflt)

/-- Python iteration (`for x in xs`): lists yield their elements, strings
their one-character substrings, dictionaries their keys; other values raise
`TypeError`. -/
def pyIter : Json → Except PyErr (List Json)
  | .arr elts => .ok elts
  | .str s => .ok (s.data.map fun c => .str (String.mk [c]))
  | .obj fields => .ok (fields.map fun f => .str f.1)
  | _ => .error (.typeErr "TypeError: object is not iterable")

/-- Python `d.keys()`. -/
def pyKeys : Json → Except PyErr (List String)
  | .obj fields => .ok (fields.map Prod.fst)
  | _ => .error (.typeErr "AttributeError: object has no attribute keys")

/-- Boolean membership in a Python set of strings (embedded as a
duplicate-free list). -/
def pysMem (x : String) : List String → Bool
  | [] => false
  | y :: ys => x == y || pysMem x ys

/-- Python `set.add`: no-op when the element is already present. -/
def pysAdd (s : List String) (x : String) : List String :=
  if pysMem x s then s else s ++ [x]

/-- Python set difference `a - b` (membership-based). -/
def pysDiff (a b : List String) : List String :=
  a.filter fun x => !(pysMem x b)

/-- Code-point comparison of character lists, matching how Python compares
strings (`sorted` uses this lexicographic order). -/
def charsLe : List Char → List Char → Bool
  | [], _ => true
  | _ :: _, [] => false
  | c :: cs, d :: ds =>
    decide (c.toNat < d.toNat) || (decide (c.toNat = d.toNat) && charsLe cs ds)

/-- Lexicographic (code point) order on strings, as Python compares them. -/
def strLe (a b : String) : Bool := charsLe a.data b.data

/-- Ordered insert used by the embedding of Python `sorted`. -/
def pyInsert (x : String) : List String → List String
  | [] => [x]
  | y :: ys => if strLe x y then x :: y :: ys else y :: pyInsert x ys

/-- Python `sorted` on a list of strings (insertion sort by `strLe`). -/
def pySorted : List String → List String
  | [] => []
  | x :: xs => pyInsert x (pySorted xs)

/-- Prefix test on character lists. -/
def charsPre : List Char → List Char → Bool
  | [], _ => true
  | _ :: _, [] => false
  | c :: cs, d :: ds => c == d && charsPre cs ds

/-- Substring test on character lists (`needle` occurs somewhere). -/
def charsSub (needle : List Char) : List Char → Bool
  | [] => needle.isEmpty
  | c :: t => charsPre needle (c :: t) || charsSub needle t

/-- Python `sub in hay` for strings. -/
def strHasSub (hay sub : String) : Bool := charsSub sub.data hay.data

/-- Python `sub == hay[:len(sub)]`, i.e. `hay.startswith(sub)`. -/
def strHasPre (hay sub : String) : Bool := charsPre sub.data hay.data

/-- Test of the comparison performed by the group scan: Python equality of
the optional `name` value against the string literal alerting_rules. -/
def nameIsAlerting : Option Json → Bool
  | some (.str s) => s == "alerting_rules"
  | _ => false

/-- Inner loop of `ConfigAnalyzer.extract_alert_names` over the rules of one
`alerting_rules` group: every rule with a truthy `alert` value contributes
its name.  Alert names are strings throughout the data model; a truthy
non-string value would make the `sorted`/`join` consuming the set raise in
Python, and the embedding surfaces that as the dynamic type failure. -/
def alertNamesOfRules : List Json → List String → Except PyErr (List String)
  | [], acc => .ok acc
  | r :: rest, acc => do
    let alertName ← pyGetOpt r "alert"
    match alertName with
    | some (.str s) =>
      if s != "" then alertNamesOfRules rest (pysAdd acc s)
      else alertNamesOfRules rest acc
    | some v =>
      if pyTruthy v then .error (.typeErr "TypeError: alert name is not a string")
      else alertNamesOfRules rest acc
    | none => alertNamesOfRules rest acc

/-- Outer loop of `ConfigAnalyzer.extract_alert_names` over the groups:
only groups named `alerting_rules` are scanned, their `rules` defaulting to
the empty list. -/
def alertNamesOfGroups : List Json → List String → Except PyErr (List String)
  | [], acc => .ok acc
  | g :: rest, acc => do
    let name ← pyGetOpt g "name"
    if nameIsAlerting name then do
      let rulesJ ← pyGetD g "rules" (.arr [])
      let rules ← pyIter rulesJ
      let acc2 ← alertNamesOfRules rules acc
      alertNamesOfGroups rest acc2
    else alertNamesOfGroups rest acc

/-- Embedding of `ConfigAnalyzer.extract_alert_names`. -/
def ConfigAnalyzer.extract_alert_names (groups : Json) : Except PyErr (List String) := do
  let gs ← pyIter groups
  alertNamesOfGroups gs []

/-- Embedding of `ConfigAnalyzer.extract_wiki_alert_names`: descends
`wiki.knowledgebase.alerts.alertings` with `{}` defaults and collects the
keys of the final mapping. -/
def ConfigAnalyzer.extract_wiki_alert_names (wiki : Json) : Except PyErr (List String) := do
  let knowledgebase ← pyGetD wiki "knowledgebase" (.obj [])
  let alerts ← pyGetD knowledgebase "alerts" (.obj [])
  let alertings ← pyGetD alerts "alertings" (.obj [])
  let ks ← pyKeys alertings
  pure (ks.foldl pysAdd [])

/-- Embedding of `ConfigAnalyzer.has_wiki_knowledgebase`: truthiness of
`wiki.knowledgebase.alerts.alertings` reached through `{}` defaults. -/
def ConfigAnalyzer.has_wiki_knowledgebase (config : Json) : Except PyErr Bool := do
  let wiki ← pyGetD config "wiki" (.obj [])
  let knowledgebase ← pyGetD wiki "knowledgebase" (.obj [])
  let alerts ← pyGetD knowledgebase "alerts" (.obj [])
  let alertings ← pyGetD alerts "alertings" (.obj [])
  pure (pyTruthy alertings)

/-- Rule scan of `ConfigAnalyzer.has_alerting_rules`: the first rule with a
truthy `alert` value returns `True` immediately. -/
def anyTruthyAlert : List Json → Except PyErr Bool
  | [] => .ok false
  | r :: rest => do
    let a ← pyGetOpt r "alert"
    if pyTruthyOpt a then pure true else anyTruthyAlert rest

/-- Group scan of `ConfigAnalyzer.has_alerting_rules`. -/
def hasAlertingLoop : List Json → Except PyErr Bool
  | [] => .ok false
  | g :: rest => do
    let name ← pyGetOpt g "name"
    if nameIsAlerting name then do
      let rulesJ ← pyGetD g "rules" (.arr [])
      let rules ← pyIter rulesJ
      let found ← anyTruthyAlert rules
      if found then pure true else hasAlertingLoop rest
    else hasAlertingLoop rest

/-- Embedding of `ConfigAnalyzer.has_alerting_rules`: true iff some group
named `alerting_rules` contains a rule with a truthy `alert` field. -/
def ConfigAnalyzer.has_alerting_rules (config : Json) : Except PyErr Bool := do
  let groupsJ ← pyGetD config "groups" (.arr [])
  let gs ← pyIter groupsJ
  hasAlertingLoop gs

/-- Embedding of `CrossReferenceValidator.should_validate_wiki_consistency`:
`has_alerting_rules(config) and has_wiki_knowledgebase(config)` with the
short-circuit evaluation of the Python `and`. -/
def CrossReferenceValidator.should_validate_wiki_consistency (config : Json) :
    Except PyErr Bool := do
  let hasAlerts ← ConfigAnalyzer.has_alerting_rules config
  if hasAlerts then ConfigAnalyzer.has_wiki_knowledgebase config else pure false

/-- The missing-documentation error built by
`validate_alert_wiki_consistency` from a non-empty `alert_names - wiki_names`
difference (names joined sorted). -/
def missingDocsError (missing : List String) : ValidationError :=
  ValidationError.init
    ("Alerts missing wiki documentation: " ++ pyJoin ", " (pySorted missing))
    (some "wiki.knowledgebase.alerts.alertings")
    (some ["Add documentation for each alert in the wiki.knowledgebase.alerts.alertings section",
           "Ensure alert names match exactly between groups and wiki sections"])

/-- The extra-documentation error built by `validate_alert_wiki_consistency`
from a non-empty `wiki_alert_names - alert_names` difference. -/
def extraDocsError (extra : List String) : ValidationError :=
  ValidationError.init
    ("Wiki documentation exists for undefined alerts: " ++ pyJoin ", " (pySorted extra))
    (some "wiki.knowledgebase.alerts.alertings")
    (some ["Remove documentation for non-existent alerts",
           "Check for typos in alert names"])

/-- Embedding of `CrossReferenceValidator.validate_alert_wiki_consistency`:
after the presence gate, compares declared alert names with documented
names and collects a missing-documentation error and an extra-documentation
error, in that order. -/
def CrossReferenceValidator.validate_alert_wiki_consistency (config : Json) :
    Except PyErr (List ValidationError) := do
  let should ← CrossReferenceValidator.should_validate_wiki_consistency config
  if !should then pure []
  else do
    let groupsJ ← pyGetD config "groups" (.arr [])
    let alertNames ← ConfigAnalyzer.extract_alert_names groupsJ
    let wikiJ ← pyGetD config "wiki" (.obj [])
    let wikiAlertNames ← ConfigAnalyzer.extract_wiki_alert_names wikiJ
    let missingDocs := pysDiff alertNames wikiAlertNames
    let errs1 : List ValidationError :=
      if missingDocs.isEmpty then [] else [missingDocsError missingDocs]
    let extraDocs := pysDiff wikiAlertNames alertNames
    let errs2 : List ValidationError :=
      if extraDocs.isEmpty then [] else [extraDocsError extraDocs]
    pure (errs1 ++ errs2)

/-- Embedding of `CrossReferenceValidator.validate_template_references`:
a deliberate no-op in the source. -/
def CrossReferenceValidator.validate_template_references (_config : Json) :
    List ValidationError := []

/-- Embedding of `CrossReferenceValidator.validate_macro_consistency`:
a deliberate no-op in the source. -/
def CrossReferenceValidator.validate_macro_consistency (_config : Json) :
    List ValidationError := []

/-- Embedding of `ConfigValidator.should_validate_cross_references`: both
analyzer checks are evaluated (no short-circuit: the source binds both
results before combining them with `and`). -/
def ConfigValidator.should_validate_cross_references (config : Json) :
    Except PyErr Bool := do
  let hasAlerts ← ConfigAnalyzer.has_alerting_rules config
  let hasWiki ← ConfigAnalyzer.has_wiki_knowledgebase config
  pure (hasAlerts && hasWiki)

/-- Numbered rendering of collected errors, starting at the given index
(the loop body of `enumerate(errors, 1)`). -/
def numberErrorsFrom (pre : String) (i : Nat) : List ValidationError → List String
  | [] => []
  | e :: rest => (pre ++ toString i ++ ": " ++ e.format_message)
      :: numberErrorsFrom pre (i + 1) rest

/-- Numbered rendering of collected errors (`f"{prefix}{i}: {rendered}"`
with `enumerate(errors, 1)`). -/
def numberErrors (pre : String) (es : List ValidationError) : List String :=
  numberErrorsFrom pre 1 es

/-- Aggregation step of `ConfigValidator.validate_json_schema` once the
schema errors are collected: none passes, exactly one is raised directly,
two or more are folded into one synthetic numbered `ValidationError`. -/
def ConfigValidator.aggregate_schema_errors (errors : List ValidationError) :
    Except PyErr Unit :=
  match errors with
  | [] => .ok ()
  | [e] => .error (.validationError e)
  | e1 :: e2 :: rest =>
    .error (.validationError (ValidationError.init
      ("Multiple validation errors found:\n" ++
        pyJoin "\n\n" (numberErrors "Error " (e1 :: e2 :: rest)))
      none (some ["Fix all validation errors to proceed"])))

/-- Embedding of `ConfigValidator.validate_cross_references`: collects the
alert/wiki errors together with the two no-op validators and applies the
same single-vs-multiple aggregation with a cross-reference numbering. -/
def ConfigValidator.validate_cross_references (config : Json) : Except PyErr Unit := do
  let wikiErrs ← CrossReferenceValidator.validate_alert_wiki_consistency config
  let errors := wikiErrs ++ CrossReferenceValidator.validate_template_references config
    ++ CrossReferenceValidator.validate_macro_consistency config
  match errors with
  | [] => pure ()
  | [e] => .error (.validationError e)
  | e1 :: e2 :: rest =>
    .error (.validationError (ValidationError.init
      ("Multiple cross-reference validation errors found:\n" ++
        pyJoin "\n\n" (numberErrors "Cross-reference error " (e1 :: e2 :: rest)))
      none (some ["Fix all cross-reference errors to proceed"])))

/-- Embedding of `ConfigValidator.validate_config`, parameterised by the
structural errors collected for this configuration by the schema phase
(the jsonschema engine and the bundled schema document are external to the
embedded source): the schema phase raises first, and the cross-reference
phase runs only when `should_validate_cross_references` holds. -/
def ConfigValidator.validate_config (schemaErrors : List ValidationError)
    (config : Json) : Except PyErr Unit := do
  ConfigValidator.aggregate_schema_errors schemaErrors
  let should ← ConfigValidator.should_validate_cross_references config
  if should then ConfigValidator.validate_cross_references config else pure ()

/-- One jsonschema validation error as consumed by
`SchemaValidator.convert_jsonschema_error`: the reported message, the
absolute path (integer indices and string keys), the failed keyword and
the schema attributes read by `generate_suggestions`. -/
structure JsLeafError where
  message : String
  absolutePath : List (Nat ⊕ String)
  validatorKw : String
  schemaType : Option String
  schemaEnum : Option (List String)
  schemaPattern : Option String
  schemaMinItems : Option Nat
  schemaMaxItems : Option Nat
deriving DecidableEq, Repr

/-- The exception raised by one `jsonschema.validate` call: the main error
plus its `context` sub-errors (non-empty only for oneOf/anyOf failures). -/
structure JsSchemaError where
  main : JsLeafError
  context : List JsLeafError
deriving DecidableEq, Repr

/-- Last whitespace-separated word of a message (`message.split()[-1]`);
the empty-message corner returns the empty string. -/
def pyLastWord (s : String) : String :=
  match ((s.split fun c => c == ' ').filter fun w => w != "").getLast? with
  | some w => w
  | none => ""

/-- Embedding of `SchemaValidator.generate_suggestions`: one suggestion
chosen by the failed keyword, with a generic fallback. -/
def SchemaValidator.generate_suggestions (e : JsLeafError) : List String :=
  if e.validatorKw == "required" then
    ["Add the required field: " ++ pyLastWord e.message]
  else if e.validatorKw == "type" then
    ["Change value to type: " ++ e.schemaType.getD "unknown"]
  else if e.validatorKw == "enum" then
    ["Use one of the allowed values: " ++ pyJoin ", " (e.schemaEnum.getD [])]
  else if e.validatorKw == "pattern" then
    ["Value must match pattern: " ++ e.schemaPattern.getD ""]
  else if e.validatorKw == "additionalProperties" then
    ["Remove unexpected properties or check property names for typos"]
  else if e.validatorKw == "minItems" then
    ["Array must have at least " ++ toString (e.schemaMinItems.getD 0) ++ " items"]
  else if e.validatorKw == "maxItems" then
    ["Array must have at most " ++ toString (e.schemaMaxItems.getD 0) ++ " items"]
  else
    ["Check the schema documentation for valid values"]

/-- Embedding of `SchemaValidator.convert_jsonschema_error`: renders the
absolute path (integer parts bracketed, joined with dots, `root` when
empty) and attaches the generated suggestions. -/
def SchemaValidator.convert_jsonschema_error (e : JsLeafError) : ValidationError :=
  let pathParts := e.absolutePath.map fun part =>
    match part with
    | .inl n => "[" ++ toString n ++ "]"
    | .inr s => s
  let path := if pathParts.isEmpty then "root" else pyJoin "." pathParts
  ValidationError.init e.message (some path) (some (SchemaValidator.generate_suggestions e))

/-- Embedding of `SchemaValidator.validate`, parameterised by the outcome
of the third-party `jsonschema.validate` call (`none` when it raised no
error): the main error and every context sub-error are converted and
accumulated in one returned list; nothing is raised. -/
def SchemaValidator.validate (outcome : Option JsSchemaError) : List ValidationError :=
  match outcome with
  | none => []
  | some e =>
    SchemaValidator.convert_jsonschema_error e.main ::
      e.context.map SchemaValidator.convert_jsonschema_error

/-- Embedding of `ConfigValidator.load_schema`.  The filesystem interaction
is abstracted by `file`: `none` for a missing file (`FileNotFoundError`),
`some (.error cause)` for present-but-unparsable content
(`json.JSONDecodeError` with message `cause`), `some (.ok doc)` for a
parsed document. -/
def ConfigValidator.load_schema (schemaPath : String)
    (file : Option (Except String Json)) : Except PyErr Json :=
  match file with
  | none =>
    .error (.validationError (ValidationError.init
      ("Schema file not found: " ++ schemaPath) none
      (some ["Ensure the unified schema file exists at the expected path"])))
  | some (.error cause) =>
    .error (.validationError (ValidationError.init
      ("Invalid JSON in schema file: " ++ cause) (some schemaPath)
      (some ["Check the schema file for valid JSON syntax"])))
  | some (.ok doc) => .ok doc

/-- Embedding of `ConfigValidator.__init__`: the schema is loaded eagerly at
construction (the console sink is I/O glue out of scope), so both failure
modes of `load_schema` are raised before any `validate_config` call. -/
def ConfigValidator.construct (schemaPath : String)
    (file : Option (Except String Json)) : Except PyErr Json :=
  ConfigValidator.load_schema schemaPath file

/-- Modelled from the spec: the structural checks driven by the bundled
`schemas/unified.json` document through the third-party jsonschema engine
are not part of the embedded source tree, so the per-group/per-rule checks
follow the words of the spec (required `groups`/`zabbix` at the root, kind
checks for both, the two-value group-name enum, per-kind `record`/`alert`
plus `expr` on rules of validly named groups, and host required fields with
`visible_name` deliberately not required). -/
def specRequiredErrors (config : Json) : List ValidationError :=
  match config with
  | .obj fields =>
    (["groups", "zabbix"].filter fun k => (fields.lookup k).isNone).map fun k =>
      ValidationError.init ("Missing required field: " ++ k) (some "root")
        (some ["Add the required field: " ++ k])
  | _ =>
    [ValidationError.init "Configuration must be an object" (some "root")
      (some ["Provide a mapping with the groups and zabbix sections"])]

/-- Kind test used by the modelled structural checks. -/
def jsonIsArr : Json → Bool
  | .arr _ => true
  | _ => false

/-- Kind test used by the modelled structural checks. -/
def jsonIsObj : Json → Bool
  | .obj _ => true
  | _ => false

/-- Modelled from the spec: top-level kind checks (`groups` an array,
`zabbix` an object) for present fields. -/
def specTypeErrors (config : Json) : List ValidationError :=
  match config with
  | .obj fields =>
    (match fields.lookup "groups" with
     | some v =>
       if jsonIsArr v then []
       else [ValidationError.init "Field groups must be an array" (some "groups")
         (some ["Change value to type: array"])]
     | none => []) ++
    (match fields.lookup "zabbix" with
     | some v =>
       if jsonIsObj v then []
       else [ValidationError.init "Field zabbix must be an object" (some "zabbix")
         (some ["Change value to type: object"])]
     | none => [])
  | _ => []

/-- Modelled from the spec: per-rule requirements, keyed by the owning
group name (`record` for recording rules, `alert` for alerting rules,
`expr` for both). -/
def specRuleErrors (gi : Nat) (groupName : String) (ri : Nat) (r : Json) :
    List ValidationError :=
  let basePath := "groups[" ++ toString gi ++ "].rules[" ++ toString ri ++ "]"
  match r with
  | .obj fields =>
    (if groupName == "recording_rules" && (fields.lookup "record").isNone then
      [ValidationError.init "Recording rule must contain a record field"
        (some (basePath ++ ".record")) (some ["Add the required field: record"])]
     else []) ++
    (if groupName == "alerting_rules" && (fields.lookup "alert").isNone then
      [ValidationError.init "Alerting rule must contain an alert field"
        (some (basePath ++ ".alert")) (some ["Add the required field: alert"])]
     else []) ++
    (if (fields.lookup "expr").isNone then
      [ValidationError.init "Rule must contain an expr field"
        (some (basePath ++ ".expr")) (some ["Add the required field: expr"])]
     else [])
  | _ =>
    [ValidationError.init "Rule must be an object" (some basePath)
      (some ["Change value to type: object"])]

/-- Modelled from the spec: per-group structure checks (object shape,
`name` in the two-value enum, `rules` an array, rules checked per kind). -/
def specGroupErrors (gi : Nat) (g : Json) : List ValidationError :=
  let gpath := "groups[" ++ toString gi ++ "]"
  match g with
  | .obj fields =>
    match fields.lookup "name" with
    | some (.str s) =>
      if s == "recording_rules" || s == "alerting_rules" then
        match fields.lookup "rules" with
        | some (.arr rs) =>
          (List.enum rs).foldr (fun p acc => specRuleErrors gi s p.1 p.2 ++ acc) []
        | some _ =>
          [ValidationError.init "Field rules must be an array" (some (gpath ++ ".rules"))
            (some ["Change value to type: array"])]
        | none =>
          [ValidationError.init "Group must contain a rules field" (some gpath)
            (some ["Add the required field: rules"])]
      else
        [ValidationError.init
          ("Invalid group name: " ++ s ++ ". Allowed values are recording_rules and alerting_rules")
          (some (gpath ++ ".name"))
          (some ["Use one of the allowed values: recording_rules, alerting_rules"])]
    | some _ =>
      [ValidationError.init "Field name must be a string" (some (gpath ++ ".name"))
        (some ["Change value to type: string"])]
    | none =>
      [ValidationError.init "Group must contain a name field" (some gpath)
        (some ["Add the required field: name"])]
  | _ =>
    [ValidationError.init "Group must be an object" (some gpath)
      (some ["Change value to type: object"])]

/-- Modelled from the spec: the groups-structure pass. -/
def specGroupsErrors (config : Json) : List ValidationError :=
  match config with
  | .obj fields =>
    match fields.lookup "groups" with
    | some (.arr gs) => (List.enum gs).foldr (fun p acc => specGroupErrors p.1 p.2 ++ acc) []
    | _ => []
  | _ => []

/-- Modelled from the spec: per-host required fields (`host_name`,
`host_groups`, `link_templates`); `visible_name` is deliberately not
required (backward compatibility). -/
def specHostErrors (hi : Nat) (h : Json) : List ValidationError :=
  let hpath := "zabbix.hosts[" ++ toString hi ++ "]"
  match h with
  | .obj fields =>
    (["host_name", "host_groups", "link_templates"].filter fun k =>
        (fields.lookup k).isNone).map fun k =>
      ValidationError.init ("Host must contain a " ++ k ++ " field")
        (some (hpath ++ "." ++ k)) (some ["Add the required field: " ++ k])
  | _ =>
    [ValidationError.init "Host must be an object" (some hpath)
      (some ["Change value to type: object"])]

/-- Modelled from the spec: the zabbix-structure pass (hosts, when present,
must be an array of objects with the per-host required fields). -/
def specZabbixErrors (config : Json) : List ValidationError :=
  match config with
  | .obj fields =>
    match fields.lookup "zabbix" with
    | some (.obj zfields) =>
      match zfields.lookup "hosts" with
      | some (.arr hs) => (List.enum hs).foldr (fun p acc => specHostErrors p.1 p.2 ++ acc) []
      | some _ =>
        [ValidationError.init "Field hosts must be an array" (some "zabbix.hosts")
          (some ["Change value to type: array"])]
      | none => []
    | _ => []
  | _ => []

/-- Modelled from the spec: the full structural pass of section 4.2,
accumulating the errors of all checks in one list (never raising and never
stopping at the first hit). -/
def schemaCheck (config : Json) : List ValidationError :=
  specRequiredErrors config ++ specTypeErrors config ++ specGroupsErrors config
    ++ specZabbixErrors config

/-- `validate_config` with its structural phase instantiated by the
spec-modelled checker. -/
def ConfigValidator.validate_config_spec (config : Json) : Except PyErr Unit :=
  ConfigValidator.validate_config (schemaCheck config) config

/-- State-threaded version of `validate_alert_wiki_consistency`, returning
the configuration visible after the call: the source only reads the
configuration (`.get` chains, iteration and set operations on freshly built
sets), so the post-state is the input. -/
def CrossReferenceValidator.validate_alert_wiki_consistency_run (config : Json) :
    Except PyErr (List ValidationError) × Json :=
  (CrossReferenceValidator.validate_alert_wiki_consistency config, config)

/-- State-threaded version of `validate_cross_references`, threading the
configuration through its one read-only sub-call. -/
def ConfigValidator.validate_cross_references_run (config : Json) :
    Except PyErr Unit × Json :=
  let wikiRun := CrossReferenceValidator.validate_alert_wiki_consistency_run config
  let config1 := wikiRun.2
  match wikiRun.1 with
  | .error e => (.error e, config1)
  | .ok wikiErrs =>
    let errors := wikiErrs ++ CrossReferenceValidator.validate_template_references config1
      ++ CrossReferenceValidator.validate_macro_consistency config1
    match errors with
    | [] => (.ok (), config1)
    | [e] => (.error (.validationError e), config1)
    | e1 :: e2 :: rest =>
      (.error (.validationError (ValidationError.init
        ("Multiple cross-reference validation errors found:\n" ++
          pyJoin "\n\n" (numberErrors "Cross-reference error " (e1 :: e2 :: rest)))
        none (some ["Fix all cross-reference errors to proceed"]))), config1)

/-- State-threaded version of `validate_config`: each phase reads the
configuration and passes it on unchanged (the source contains no assignment
into `config_data`). -/
def ConfigValidator.validate_config_run (schemaErrors : List ValidationError)
    (config : Json) : Except PyErr Unit × Json :=
  match ConfigValidator.aggregate_schema_errors schemaErrors with
  | .error e => (.error e, config)
  | .ok _ =>
    match ConfigValidator.should_validate_cross_references config with
    | .error e => (.error e, config)
    | .ok true => ConfigValidator.validate_cross_references_run config
    | .ok false => (.ok (), config)

/-- Join continuation used to reason about `pyJoin`: the separator-prefixed
concatenation of the remaining parts. -/
def pyJoinTail (sep : String) (xs : List String) : String :=
  xs.foldl (fun acc x => acc ++ sep ++ x) ""

/-- Configuration of the repository test
`test_validation.py::test_alert_wiki_consistency_extra_docs`: one declared
alert `active_alert`, wiki documentation for `active_alert` and for the
undeclared `legacy_alert`. -/
def extraDocsConfig : Json := .obj [
  ("groups", .arr [ .obj [("name", .str "alerting_rules"), ("rules", .arr [
    .obj [("alert", .str "active_alert"), ("expr", .str "metric > 1"),
          ("annotations", .obj [("summary", .str "Test")])] ])] ]),
  ("zabbix", .obj [("template", .str "test_template")]),
  ("wiki", .obj [("knowledgebase", .obj [("alerts", .obj [("alertings", .obj [
    ("active_alert", .obj [("title", .str "Active Alert"),
                           ("content", .str "Documentation for active alert")]),
    ("legacy_alert", .obj [("title", .str "Legacy Alert"),
                           ("content", .str "Documentation for deprecated alert")])])])])])]

/-- Configuration with two structural problems at once: an invalid group
name and a missing `zabbix` section. -/
def twoSchemaErrorsConfig : Json := .obj [
  ("groups", .arr [ .obj [("name", .str "invalid_group_name"),
    ("rules", .arr [ .obj [("expr", .str "test_expr")] ])] ])]

/-- Configuration declaring alerts `ALERT_A` and `ALERT_B` while the wiki
documents only `ALERT_A`. -/
def missingDocsConfig : Json := .obj [
  ("groups", .arr [ .obj [("name", .str "alerting_rules"), ("rules", .arr [
    .obj [("alert", .str "ALERT_B"), ("expr", .str "x > 1")],
    .obj [("alert", .str "ALERT_A"), ("expr", .str "y > 1")] ])] ]),
  ("zabbix", .obj [("template", .str "t")]),
  ("wiki", .obj [("knowledgebase", .obj [("alerts", .obj [("alertings", .obj [
    ("ALERT_A", .obj [("title", .str "a"), ("content", .str "c")])])])])])]

@[simp] theorem exc_bind_ok {α β : Type} (a : α) (f : α → Except PyErr β) :
    ((Except.ok a : Except PyErr α) >>= f) = f a := rfl

@[simp] theorem exc_bind_err {α β : Type} (e : PyErr) (f : α → Except PyErr β) :
    ((Except.error e : Except PyErr α) >>= f) = .error e := rfl

@[simp] theorem exc_pure {α : Type} (a : α) :
    (pure a : Except PyErr α) = Except.ok a := rfl

@[simp] theorem init_message (m : String) (p : Option String) (s : Option (List String)) :
    (ValidationError.init m p s).message = m := rfl

@[simp] theorem init_path (m : String) (p : Option String) (s : Option (List String)) :
    (ValidationError.init m p s).path = p := rfl

@[simp] theorem init_suggestions (m : String) (p : Option String) (s : Option (List String)) :
    (ValidationError.init m p s).suggestions = s.getD [] := rfl

theorem pysMem_iff (x : String) (l : List String) : pysMem x l = true ↔ x ∈ l := by
  induction l with
  | nil => simp [pysMem]
  | cons y ys ih => simp [pysMem, ih]

theorem mem_pysDiff (x : String) (a b : List String) :
    x ∈ pysDiff a b ↔ x ∈ a ∧ ¬ x ∈ b := by
  simp [pysDiff, List.mem_filter, ← pysMem_iff]

theorem mem_pyInsert (a x : String) (l : List String) :
    a ∈ pyInsert x l ↔ a = x ∨ a ∈ l := by
  induction l with
  | nil => simp [pyInsert]
  | cons y ys ih =>
    by_cases h : strLe x y = true
    · simp [pyInsert, h]
    · simp [pyInsert, h, ih]
      tauto

theorem mem_pySorted (a : String) (l : List String) : a ∈ pySorted l ↔ a ∈ l := by
  induction l with
  | nil => simp [pySorted]
  | cons x xs ih => simp [pySorted, mem_pyInsert, ih]

theorem charsLe_total (a b : List Char) (h : charsLe a b = false) : charsLe b a = true := by
  induction a generalizing b with
  | nil => simp [charsLe] at h
  | cons c cs ih =>
    cases b with
    | nil => simp [charsLe]
    | cons d ds =>
      simp [charsLe] at h ⊢
      obtain ⟨h1, h2⟩ := h
      by_cases he : c.toNat = d.toNat
      · right
        exact ⟨he.symm, ih ds (h2 he)⟩
      · left
        omega

theorem charsLe_trans (a b c : List Char) (hab : charsLe a b = true)
    (hbc : charsLe b c = true) : charsLe a c = true := by
  induction a generalizing b c with
  | nil => simp [charsLe]
  | cons x xs ih =>
    cases b with
    | nil => simp [charsLe] at hab
    | cons y ys =>
      cases c with
      | nil => simp [charsLe] at hbc
      | cons z zs =>
        simp [charsLe] at hab hbc ⊢
        rcases hab with hab | ⟨hab1, hab2⟩ <;> rcases hbc with hbc | ⟨hbc1, hbc2⟩
        · left; omega
        · left; omega
        · left; omega
        · right
          exact ⟨by omega, ih ys zs hab2 hbc2⟩

theorem strLe_total (a b : String) (h : strLe a b = false) : strLe b a = true :=
  charsLe_total a.data b.data h

theorem strLe_trans (a b c : String) (hab : strLe a b = true) (hbc : strLe b c = true) :
    strLe a c = true :=
  charsLe_trans a.data b.data c.data hab hbc

theorem pairwise_pyInsert (x : String) (l : List String)
    (h : List.Pairwise (fun a b => strLe a b = true) l) :
    List.Pairwise (fun a b => strLe a b = true) (pyInsert x l) := by
  induction l with
  | nil => simp [pyInsert]
  | cons y ys ih =>
    rcases List.pairwise_cons.mp h with ⟨hy, hys⟩
    by_cases hxy : strLe x y = true
    · simp only [pyInsert, hxy, if_true]
      refine List.pairwise_cons.mpr ⟨?_, h⟩
      intro z hz
      rcases List.mem_cons.mp hz with hzy | hz
      · subst hzy
        exact hxy
      · exact strLe_trans x y z hxy (hy z hz)
    · simp only [pyInsert, hxy, if_false]
      refine List.pairwise_cons.mpr ⟨?_, ih hys⟩
      intro z hz
      rcases (mem_pyInsert z x ys).mp hz with hzx | hz
      · subst hzx
        exact strLe_total _ _ (by simpa using hxy)
      · exact hy z hz

theorem pySorted_pairwise (l : List String) :
    List.Pairwise (fun a b => strLe a b = true) (pySorted l) := by
  induction l with
  | nil => simp [pySorted]
  | cons x xs ih => exact pairwise_pyInsert x _ ih

theorem charsPre_self_append (n m : List Char) : charsPre n (n ++ m) = true := by
  induction n with
  | nil => simp [charsPre]
  | cons c cs ih => simp [charsPre, ih]

theorem charsPre_append (n l m : List Char) (h : charsPre n l = true) :
    charsPre n (l ++ m) = true := by
  induction n generalizing l with
  | nil => simp [charsPre]
  | cons c cs ih =>
    cases l with
    | nil => simp [charsPre] at h
    | cons d ds =>
      simp [charsPre] at h ⊢
      exact ⟨h.1, ih ds h.2⟩

theorem charsSub_of_pre (n h : List Char) (hp : charsPre n h = true) :
    charsSub n h = true := by
  cases h with
  | nil =>
    cases n with
    | nil => simp [charsSub]
    | cons c cs => simp [charsPre] at hp
  | cons c t => simp [charsSub, hp]

theorem charsSub_append_left (n l h : List Char) (hs : charsSub n h = true) :
    charsSub n (l ++ h) = true := by
  induction l with
  | nil => exact hs
  | cons c cs ih => simp [charsSub, ih]

theorem charsSub_surround (n pre post : List Char) :
    charsSub n (pre ++ (n ++ post)) = true :=
  charsSub_append_left n pre (n ++ post) (charsSub_of_pre n (n ++ post) (charsPre_self_append n post))

theorem strHasSub_of_split (hay sub pre post : String) (h : hay = pre ++ (sub ++ post)) :
    strHasSub hay sub = true := by
  rw [strHasSub, h]
  have hd : (pre ++ (sub ++ post)).data = pre.data ++ (sub.data ++ post.data) := by
    simp [String.data_append]
  rw [hd]
  exact charsSub_surround sub.data pre.data post.data

theorem pyJoin_foldl (sep : String) (xs : List String) (a : String) :
    xs.foldl (fun acc x => acc ++ sep ++ x) a = a ++ pyJoinTail sep xs := by
  induction xs generalizing a with
  | nil => simpa [pyJoinTail] using (String.append_empty a).symm
  | cons x xs ih =>
    show List.foldl _ (a ++ sep ++ x) xs = _
    rw [ih]
    have h2 : pyJoinTail sep (x :: xs) = (sep ++ x) ++ pyJoinTail sep xs := by
      show List.foldl _ ("" ++ sep ++ x) xs = _
      rw [ih]
      rfl
    rw [h2, String.append_assoc, String.append_assoc, String.append_assoc]

theorem pyJoin_cons (sep x : String) (xs : List String) :
    pyJoin sep (x :: xs) = x ++ pyJoinTail sep xs := by
  rw [pyJoin]
  exact pyJoin_foldl sep xs x

theorem pyJoinTail_nil (sep : String) : pyJoinTail sep [] = "" := rfl

theorem pyJoinTail_cons (sep x : String) (xs : List String) :
    pyJoinTail sep (x :: xs) = sep ++ x ++ pyJoinTail sep xs := by
  show List.foldl _ ("" ++ sep ++ x) xs = _
  rw [pyJoin_foldl]
  rfl

theorem pyJoinTail_append (sep : String) (xs ys : List String) :
    pyJoinTail sep (xs ++ ys) = pyJoinTail sep xs ++ pyJoinTail sep ys := by
  induction xs with
  | nil => rfl
  | cons x xs ih =>
    rw [List.cons_append, pyJoinTail_cons, pyJoinTail_cons, ih]
    simp [String.append_assoc]


theorem strFoldlAppend (xs : List String) (a : String) :
    xs.foldl (· ++ ·) a = a ++ String.join xs := by
  induction xs generalizing a with
  | nil => simpa [String.join] using (String.append_empty a).symm
  | cons x xs ih =>
    show List.foldl _ (a ++ x) xs = _
    rw [ih]
    have h : String.join (x :: xs) = x ++ String.join xs := by
      show List.foldl _ ("" ++ x) xs = _
      rw [ih]
      rfl
    rw [h, String.append_assoc]

theorem join_cons (x : String) (xs : List String) :
    String.join (x :: xs) = x ++ String.join xs := by
  show List.foldl _ ("" ++ x) xs = _
  rw [strFoldlAppend]
  rfl

theorem bullets_bridge (sugg : List String) :
    pyJoinTail "\n" (sugg.map fun s => "  - " ++ s) =
      String.join (sugg.map fun s => "\n  - " ++ s) := by
  induction sugg with
  | nil => rfl
  | cons s ss ih =>
    rw [List.map_cons, pyJoinTail_cons, ih, List.map_cons, join_cons]
    have hlit : ("\n" : String) ++ "  - " = "\n  - " := rfl
    rw [← hlit]
    simp only [String.append_assoc]

/-- C7: `format_message` renders exactly the message line, then a
`Path: <path>` line precisely when the path is set and non-empty, then a
`Suggestions:` block with one two-space-dash bullet line per suggestion
precisely when the suggestion list is non-empty, all joined by newlines. -/
theorem format_message_rendering (e : ValidationError) :
    ValidationError.format_message e =
      e.message
      ++ (match e.path with
          | some p => if p = "" then "" else "\nPath: " ++ p
          | none => "")
      ++ (if e.suggestions = [] then ""
          else "\nSuggestions:" ++ String.join (e.suggestions.map fun s => "\n  - " ++ s)) := by
  obtain ⟨m, p, sugg, ex⟩ := e
  have hsugg : ∀ (front : String),
      front ++ pyJoinTail "\n" ("Suggestions:" :: sugg.map fun s => "  - " ++ s) =
        front ++ ("\nSuggestions:" ++ String.join (sugg.map fun s => "\n  - " ++ s)) := by
    intro front
    rw [pyJoinTail_cons, bullets_bridge]
    have h : ("\n" : String) ++ "Suggestions:" = "\nSuggestions:" := rfl
    rw [h]
  cases p with
  | none =>
    cases sugg with
    | nil =>
      show pyJoin "\n" [m] = m ++ "" ++ ""
      rw [String.append_empty, String.append_empty]
      rfl
    | cons s0 srest =>
      show pyJoin "\n" (m :: "Suggestions:" :: List.map _ (s0 :: srest)) = m ++ "" ++ _
      rw [pyJoin_cons, hsugg m, String.append_empty]
      simp
  | some pv =>
    by_cases hp : pv = ""
    · subst hp
      cases sugg with
      | nil =>
        show pyJoin "\n" [m] = m ++ "" ++ ""
        rw [String.append_empty, String.append_empty]
        rfl
      | cons s0 srest =>
        show pyJoin "\n" (m :: "Suggestions:" :: List.map _ (s0 :: srest)) = m ++ "" ++ _
        rw [pyJoin_cons, hsugg m, String.append_empty]
        simp
    · have hp2 : pyTruthyOptStr (some pv) = true := by simp [pyTruthyOptStr, hp]
      have hpath : ("\n" : String) ++ ("Path: " ++ pv) = "\nPath: " ++ pv := by
        rw [← String.append_assoc]
        rfl
      cases sugg with
      | nil =>
        simp only [ValidationError.format_message, hp2, if_true, List.isEmpty_nil,
          Option.getD_some, if_neg hp, List.cons_append, List.nil_append]
        rw [pyJoin_cons, pyJoinTail_cons, pyJoinTail_nil, String.append_empty,
          String.append_empty, hpath]
      | cons s0 srest =>
        have hne : (s0 :: srest) ≠ ([] : List String) := by simp
        simp only [ValidationError.format_message, hp2, if_true, Option.getD_some,
          List.isEmpty_cons, if_false, if_neg hne, if_neg hp, List.cons_append,
          List.nil_append, Bool.false_eq_true]
        rw [pyJoin_cons, pyJoinTail_cons, hsugg ("\n" ++ ("Path: " ++ pv)), hpath]
        simp only [String.append_assoc]

/-- C10: the string representation a caller sees (`str(e)`, the argument
handed to `Exception.__init__`) is the full `format_message` rendering, and
the constructor normalises an absent suggestions argument to the empty
list. -/
theorem str_of_error_is_full_rendering (m : String) (p : Option String)
    (sugg : Option (List String)) :
    (ValidationError.init m p sugg).excStr = (ValidationError.init m p sugg).format_message
    ∧ (ValidationError.init m p none).suggestions = []
    ∧ (ValidationError.init m p sugg).suggestions = sugg.getD [] :=
  ⟨rfl, rfl, rfl⟩

theorem validate_cross_references_run_eq (config : Json) :
    ConfigValidator.validate_cross_references_run config =
      (ConfigValidator.validate_cross_references config, config) := by
  rw [ConfigValidator.validate_cross_references_run, ConfigValidator.validate_cross_references,
    CrossReferenceValidator.validate_alert_wiki_consistency_run]
  cases h : CrossReferenceValidator.validate_alert_wiki_consistency config with
  | error e => simp [h]
  | ok errs =>
    rcases errs with _ | ⟨e1, _ | ⟨e2, rest⟩⟩ <;>
      simp [h, CrossReferenceValidator.validate_template_references,
        CrossReferenceValidator.validate_macro_consistency]

theorem validate_config_run_eq (schemaErrors : List ValidationError) (config : Json) :
    ConfigValidator.validate_config_run schemaErrors config =
      (ConfigValidator.validate_config schemaErrors config, config) := by
  rw [ConfigValidator.validate_config_run, ConfigValidator.validate_config]
  cases hagg : ConfigValidator.aggregate_schema_errors schemaErrors with
  | error e => simp [hagg]
  | ok u =>
    cases u
    cases hs : ConfigValidator.should_validate_cross_references config with
    | error e => simp [hagg, hs]
    | ok b => cases b <;> simp [hagg, hs, validate_cross_references_run_eq]

/-- C9: validation is read-only on the configuration: the configuration
visible after `validate_config` (and after the cross-reference validation
it invokes) is the configuration passed in, whether the call succeeds or
raises. -/
theorem validate_config_preserves_config (schemaErrors : List ValidationError)
    (config : Json) :
    (ConfigValidator.validate_config_run schemaErrors config).2 = config
    ∧ (CrossReferenceValidator.validate_alert_wiki_consistency_run config).2 = config := by
  constructor
  · rw [validate_config_run_eq]
  · rfl

/-- C8: `validate_config` is deterministic and idempotent: a second call on
the configuration left by a first call produces the same outcome, and each
call outcome is the pure function of validator state and configuration. -/
theorem validate_config_idempotent (schemaErrors : List ValidationError) (config : Json) :
    (ConfigValidator.validate_config_run schemaErrors
        (ConfigValidator.validate_config_run schemaErrors config).2).1
      = (ConfigValidator.validate_config_run schemaErrors config).1
    ∧ (ConfigValidator.validate_config_run schemaErrors config).1
      = ConfigValidator.validate_config schemaErrors config := by
  simp [validate_config_run_eq]

/-- C3: when a configuration lacks alerting rules or lacks a wiki
knowledgebase, cross-reference validation contributes zero errors:
`validate_alert_wiki_consistency` returns the empty list, the
cross-reference gate is false, and `validate_config` is exactly its schema
phase, whatever mismatch the sections would otherwise show. -/
theorem cross_reference_gate_skips_validation (config : Json) (a w : Bool)
    (h1 : ConfigAnalyzer.has_alerting_rules config = .ok a)
    (h2 : ConfigAnalyzer.has_wiki_knowledgebase config = .ok w)
    (hfw : a = false ∨ w = false) :
    CrossReferenceValidator.validate_alert_wiki_consistency config = .ok []
    ∧ ConfigValidator.should_validate_cross_references config = .ok false
    ∧ ∀ schemaErrors, ConfigValidator.validate_config schemaErrors config
        = ConfigValidator.aggregate_schema_errors schemaErrors := by
  have hshort : CrossReferenceValidator.should_validate_wiki_consistency config = .ok false := by
    rw [CrossReferenceValidator.should_validate_wiki_consistency, h1]
    rcases hfw with rfl | rfl
    · simp
    · cases a <;> simp [h2]
  have hgate : ConfigValidator.should_validate_cross_references config = .ok false := by
    rw [ConfigValidator.should_validate_cross_references, h1]
    rcases hfw with rfl | rfl
    · simp [h2]
    · simp [h2]
  refine ⟨?_, hgate, ?_⟩
  · rw [CrossReferenceValidator.validate_alert_wiki_consistency, hshort]
    simp
  · intro schemaErrors
    rw [ConfigValidator.validate_config]
    cases hagg : ConfigValidator.aggregate_schema_errors schemaErrors with
    | error e => simp [hagg]
    | ok u =>
      cases u
      simp [hagg, hgate]

/-- C3 witness: the empty configuration has neither alerting rules nor a
wiki knowledgebase, and cross-reference validation contributes nothing. -/
theorem cross_reference_gate_witness :
    CrossReferenceValidator.validate_alert_wiki_consistency (.obj []) = .ok []
    ∧ ConfigValidator.should_validate_cross_references (.obj []) = .ok false
    ∧ ConfigValidator.validate_config [] (.obj [])
        = ConfigValidator.aggregate_schema_errors [] :=
  have h := cross_reference_gate_skips_validation (.obj []) false false rfl rfl (Or.inl rfl)
  ⟨h.1, h.2.1, h.2.2 []⟩

/-- C6: the four `ConfigAnalyzer` functions treat an absent key at any
level of their nested chains as no data: a missing `groups` key, a group
without `name` or without `rules`, a rule without `alert`, or a wiki chain
broken at `knowledgebase`, `alerts` or `alertings` yields the empty set or
`False` through the `.ok` constructor, never an exception. -/
theorem analyzer_missing_keys_are_no_data :
    (∀ fields : List (String × Json), fields.lookup "groups" = none →
      ConfigAnalyzer.has_alerting_rules (.obj fields) = .ok false)
    ∧ (ConfigAnalyzer.extract_alert_names (.arr []) = .ok [])
    ∧ (∀ (fields : List (String × Json)) (rest : List Json), fields.lookup "name" = none →
      ConfigAnalyzer.extract_alert_names (.arr (.obj fields :: rest))
        = ConfigAnalyzer.extract_alert_names (.arr rest))
    ∧ (∀ (fields : List (String × Json)) (rest : List Json),
      fields.lookup "name" = some (.str "alerting_rules") → fields.lookup "rules" = none →
      ConfigAnalyzer.extract_alert_names (.arr (.obj fields :: rest))
        = ConfigAnalyzer.extract_alert_names (.arr rest))
    ∧ (∀ rfields : List (String × Json), rfields.lookup "alert" = none →
      ConfigAnalyzer.extract_alert_names (.arr [.obj [("name", .str "alerting_rules"),
        ("rules", .arr [.obj rfields])]]) = .ok [])
    ∧ (∀ fields : List (String × Json), fields.lookup "knowledgebase" = none →
      ConfigAnalyzer.extract_wiki_alert_names (.obj fields) = .ok [])
    ∧ (∀ fields : List (String × Json), fields.lookup "alerts" = none →
      ConfigAnalyzer.extract_wiki_alert_names (.obj [("knowledgebase", .obj fields)]) = .ok [])
    ∧ (∀ fields : List (String × Json), fields.lookup "alertings" = none →
      ConfigAnalyzer.extract_wiki_alert_names
        (.obj [("knowledgebase", .obj [("alerts", .obj fields)])]) = .ok [])
    ∧ (∀ fields : List (String × Json), fields.lookup "wiki" = none →
      ConfigAnalyzer.has_wiki_knowledgebase (.obj fields) = .ok false)
    ∧ (∀ rfields : List (String × Json), rfields.lookup "alert" = none →
      ConfigAnalyzer.has_alerting_rules (.obj [("groups",
        .arr [.obj [("name", .str "alerting_rules"),
          ("rules", .arr [.obj rfields])]])]) = .ok false) := by
  refine ⟨?_, rfl, ?_, ?_, ?_, ?_, ?_, ?_, ?_, ?_⟩
  · intro fields h
    simp [ConfigAnalyzer.has_alerting_rules, pyGetD, pyGetOpt, pyIter, hasAlertingLoop, h]
  · intro fields rest h
    simp [ConfigAnalyzer.extract_alert_names, pyIter, alertNamesOfGroups, pyGetOpt,
      nameIsAlerting, h]
  · intro fields rest h1 h2
    simp [ConfigAnalyzer.extract_alert_names, pyIter, alertNamesOfGroups, pyGetOpt,
      nameIsAlerting, pyGetD, alertNamesOfRules, h1, h2]
  · intro rfields h
    have hlook : List.lookup "rules" [("name", Json.str "alerting_rules"),
        ("rules", Json.arr [Json.obj rfields])] = some (Json.arr [Json.obj rfields]) := rfl
    simp [ConfigAnalyzer.extract_alert_names, pyIter, alertNamesOfGroups, pyGetOpt,
      nameIsAlerting, pyGetD, alertNamesOfRules, hlook, h]
  · intro fields h
    simp [ConfigAnalyzer.extract_wiki_alert_names, pyGetD, pyGetOpt, pyKeys, h]
  · intro fields h
    simp [ConfigAnalyzer.extract_wiki_alert_names, pyGetD, pyGetOpt, pyKeys, h]
  · intro fields h
    simp [ConfigAnalyzer.extract_wiki_alert_names, pyGetD, pyGetOpt, pyKeys, h]
  · intro fields h
    simp [ConfigAnalyzer.has_wiki_knowledgebase, pyGetD, pyGetOpt, pyTruthy, h]
  · intro rfields h
    have hlook : List.lookup "rules" [("name", Json.str "alerting_rules"),
        ("rules", Json.arr [Json.obj rfields])] = some (Json.arr [Json.obj rfields]) := rfl
    simp [ConfigAnalyzer.has_alerting_rules, pyGetD, pyGetOpt, pyIter, hasAlertingLoop,
      nameIsAlerting, anyTruthyAlert, pyTruthyOpt, hlook, h]

/-- C6 witness: the conjuncts of the missing-key theorem instantiated on
concrete configurations with the relevant key absent. -/
theorem analyzer_missing_keys_witness :
    ConfigAnalyzer.has_alerting_rules (.obj [("zabbix", .obj [])]) = .ok false
    ∧ ConfigAnalyzer.extract_alert_names (.arr [.obj [("rules", .arr [])]])
        = ConfigAnalyzer.extract_alert_names (.arr [])
    ∧ ConfigAnalyzer.extract_alert_names (.arr [.obj [("name", .str "alerting_rules")]])
        = ConfigAnalyzer.extract_alert_names (.arr [])
    ∧ ConfigAnalyzer.extract_alert_names (.arr [.obj [("name", .str "alerting_rules"),
        ("rules", .arr [.obj [("expr", .str "1")]])]]) = .ok []
    ∧ ConfigAnalyzer.extract_wiki_alert_names (.obj [("templates", .obj [])]) = .ok []
    ∧ ConfigAnalyzer.extract_wiki_alert_names (.obj [("knowledgebase", .obj [])]) = .ok []
    ∧ ConfigAnalyzer.extract_wiki_alert_names
        (.obj [("knowledgebase", .obj [("alerts", .obj [])])]) = .ok []
    ∧ ConfigAnalyzer.has_wiki_knowledgebase (.obj [("groups", .arr [])]) = .ok false
    ∧ ConfigAnalyzer.has_alerting_rules (.obj [("groups",
        .arr [.obj [("name", .str "alerting_rules"),
          ("rules", .arr [.obj [("expr", .str "1")]])]])]) = .ok false :=
  have h := analyzer_missing_keys_are_no_data
  ⟨h.1 [("zabbix", .obj [])] rfl,
   h.2.2.1 [("rules", .arr [])] [] rfl,
   h.2.2.2.1 [("name", .str "alerting_rules")] [] rfl rfl,
   h.2.2.2.2.1 [("expr", .str "1")] rfl,
   h.2.2.2.2.2.1 [("templates", .obj [])] rfl,
   h.2.2.2.2.2.2.1 [] rfl,
   h.2.2.2.2.2.2.2.1 [] rfl,
   h.2.2.2.2.2.2.2.2.1 [("groups", .arr [])] rfl,
   h.2.2.2.2.2.2.2.2.2 [("expr", .str "1")] rfl⟩

theorem strHasPre_missing (j : String) :
    strHasPre ("Alerts missing wiki documentation: " ++ j)
      "Alerts missing wiki documentation" = true := by
  rw [strHasPre]
  have hd : ("Alerts missing wiki documentation: " ++ j).data
      = "Alerts missing wiki documentation".data ++ (':' :: ' ' :: j.data) := by
    rw [String.data_append]
    rfl
  rw [hd]
  exact charsPre_self_append _ _

theorem strHasPre_extra_false (j : String) :
    strHasPre ("Wiki documentation exists for undefined alerts: " ++ j)
      "Alerts missing wiki documentation" = false := by
  rw [strHasPre]
  have hd : ("Wiki documentation exists for undefined alerts: " ++ j).data
      = 'W' :: ("iki documentation exists for undefined alerts: ".data ++ j.data) := by
    rw [String.data_append]
    rfl
  have hn : "Alerts missing wiki documentation".data
      = 'A' :: "lerts missing wiki documentation".data := rfl
  have hc : ('A' == 'W') = false := rfl
  rw [hd, hn]
  simp [charsPre, hc]

/-- C4: past the gate, a non-empty set of undocumented alerts produces
exactly one missing-documentation error, heading the returned list, whose
message lists exactly the missing names in sorted order and whose path is
the alertings section. -/
theorem missing_docs_single_sorted_error (config groupsJ wikiJ : Json)
    (alertNames wikiNames : List String)
    (h1 : CrossReferenceValidator.should_validate_wiki_consistency config = .ok true)
    (h2 : pyGetD config "groups" (.arr []) = .ok groupsJ)
    (h3 : ConfigAnalyzer.extract_alert_names groupsJ = .ok alertNames)
    (h4 : pyGetD config "wiki" (.obj []) = .ok wikiJ)
    (h5 : ConfigAnalyzer.extract_wiki_alert_names wikiJ = .ok wikiNames)
    (h6 : pysDiff alertNames wikiNames ≠ []) :
    ∃ errs, CrossReferenceValidator.validate_alert_wiki_consistency config = .ok errs
      ∧ errs.head? = some (missingDocsError (pysDiff alertNames wikiNames))
      ∧ (errs.filter fun e =>
          strHasPre e.message "Alerts missing wiki documentation").length = 1
      ∧ (missingDocsError (pysDiff alertNames wikiNames)).message
          = "Alerts missing wiki documentation: "
            ++ pyJoin ", " (pySorted (pysDiff alertNames wikiNames))
      ∧ (missingDocsError (pysDiff alertNames wikiNames)).path
          = some "wiki.knowledgebase.alerts.alertings"
      ∧ (∀ s, s ∈ pySorted (pysDiff alertNames wikiNames)
          ↔ s ∈ alertNames ∧ ¬ s ∈ wikiNames)
      ∧ List.Pairwise (fun a b => strLe a b = true)
          (pySorted (pysDiff alertNames wikiNames)) := by
  have hme : (pysDiff alertNames wikiNames).isEmpty = false := by
    cases hd : pysDiff alertNames wikiNames with
    | nil => exact absurd hd h6
    | cons a l => rfl
  have hrun : CrossReferenceValidator.validate_alert_wiki_consistency config =
      .ok ([missingDocsError (pysDiff alertNames wikiNames)]
        ++ (if (pysDiff wikiNames alertNames).isEmpty then []
            else [extraDocsError (pysDiff wikiNames alertNames)])) := by
    rw [CrossReferenceValidator.validate_alert_wiki_consistency, h1]
    simp [h2, h3, h4, h5, hme, h6]
  refine ⟨_, hrun, ?_, ?_, rfl, rfl, ?_, ?_⟩
  · rfl
  · cases hext : (pysDiff wikiNames alertNames).isEmpty with
    | true =>
      simp [hext, List.filter, missingDocsError, strHasPre_missing]
    | false =>
      simp [hext, List.filter, missingDocsError, extraDocsError, strHasPre_missing,
        strHasPre_extra_false]
  · intro s
    rw [mem_pySorted, mem_pysDiff]
  · exact pySorted_pairwise _

/-- C4 witness: with alerts `ALERT_A` and `ALERT_B` declared and only
`ALERT_A` documented, the theorem applies and names only `ALERT_B`. -/
theorem missing_docs_witness :
    ∃ errs, CrossReferenceValidator.validate_alert_wiki_consistency missingDocsConfig = .ok errs
      ∧ errs.head? = some (missingDocsError (pysDiff ["ALERT_B", "ALERT_A"] ["ALERT_A"]))
      ∧ (errs.filter fun e =>
          strHasPre e.message "Alerts missing wiki documentation").length = 1
      ∧ (missingDocsError (pysDiff ["ALERT_B", "ALERT_A"] ["ALERT_A"])).message
          = "Alerts missing wiki documentation: "
            ++ pyJoin ", " (pySorted (pysDiff ["ALERT_B", "ALERT_A"] ["ALERT_A"]))
      ∧ (missingDocsError (pysDiff ["ALERT_B", "ALERT_A"] ["ALERT_A"])).path
          = some "wiki.knowledgebase.alerts.alertings"
      ∧ (∀ s, s ∈ pySorted (pysDiff ["ALERT_B", "ALERT_A"] ["ALERT_A"])
          ↔ s ∈ ["ALERT_B", "ALERT_A"] ∧ ¬ s ∈ ["ALERT_A"])
      ∧ List.Pairwise (fun a b => strLe a b = true)
          (pySorted (pysDiff ["ALERT_B", "ALERT_A"] ["ALERT_A"])) :=
  missing_docs_single_sorted_error missingDocsConfig
    (.arr [ .obj [("name", .str "alerting_rules"), ("rules", .arr [
      .obj [("alert", .str "ALERT_B"), ("expr", .str "x > 1")],
      .obj [("alert", .str "ALERT_A"), ("expr", .str "y > 1")] ])] ])
    (.obj [("knowledgebase", .obj [("alerts", .obj [("alertings", .obj [
      ("ALERT_A", .obj [("title", .str "a"), ("content", .str "c")])])])])])
    ["ALERT_B", "ALERT_A"] ["ALERT_A"] rfl rfl rfl rfl rfl (by decide)

theorem strHasSub_join_two (hdr m1 m2 : String) (rest : List String) (sep : String)
    (sub1 sub2 sp1 sp2 : String) (h1 : m1 = sub1 ++ sp1) (h2 : m2 = sub2 ++ sp2) :
    strHasSub (hdr ++ pyJoin sep (m1 :: m2 :: rest)) sub1 = true
    ∧ strHasSub (hdr ++ pyJoin sep (m1 :: m2 :: rest)) sub2 = true := by
  constructor
  · apply strHasSub_of_split _ _ hdr (sp1 ++ pyJoinTail sep (m2 :: rest))
    rw [pyJoin_cons, h1]
    simp [String.append_assoc]
  · apply strHasSub_of_split _ _ (hdr ++ m1 ++ sep) (sp2 ++ pyJoinTail sep rest)
    rw [pyJoin_cons, pyJoinTail_cons, h2]
    simp [String.append_assoc]

/-- C2: the schema phase accumulates the main error and every context
sub-error of one engine pass in a returned list without raising; the
orchestrator raises a single error directly, folds two or more into one
synthetic error whose message numbers each rendered inner error; and the
invalid-group-name-plus-missing-zabbix configuration raises once with both
an `Error 1:` and an `Error 2:` segment. -/
theorem schema_error_accumulation_and_aggregation :
    (∀ je : JsSchemaError,
      (SchemaValidator.validate (some je)).length = je.context.length + 1)
    ∧ (∀ e : ValidationError,
      ConfigValidator.aggregate_schema_errors [e] = .error (.validationError e))
    ∧ (∀ errors : List ValidationError, 2 ≤ errors.length →
      ∃ agg : ValidationError,
        ConfigValidator.aggregate_schema_errors errors = .error (.validationError agg)
        ∧ strHasSub agg.message "Error 1:" = true
        ∧ strHasSub agg.message "Error 2:" = true)
    ∧ (2 ≤ (schemaCheck twoSchemaErrorsConfig).length
      ∧ ∃ agg : ValidationError,
        ConfigValidator.validate_config_spec twoSchemaErrorsConfig
          = .error (.validationError agg)
        ∧ strHasSub agg.message "Error 1:" = true
        ∧ strHasSub agg.message "Error 2:" = true) := by
  refine ⟨?_, ?_, ?_, ?_⟩
  · intro je
    simp [SchemaValidator.validate]
  · intro e
    rfl
  · intro errors h
    rcases errors with _ | ⟨e1, _ | ⟨e2, rest⟩⟩
    · simp at h
    · simp at h
    · have hnum : numberErrors "Error " (e1 :: e2 :: rest)
          = ("Error 1: " ++ e1.format_message) :: ("Error 2: " ++ e2.format_message)
            :: numberErrorsFrom "Error " 3 rest := rfl
      have hm := strHasSub_join_two "Multiple validation errors found:\n"
        ("Error 1: " ++ e1.format_message) ("Error 2: " ++ e2.format_message)
        (numberErrorsFrom "Error " 3 rest)
        "\n\n" "Error 1:" "Error 2:"
        (" " ++ e1.format_message) (" " ++ e2.format_message)
        (by rw [show ("Error 1: " : String) = "Error 1:" ++ " " from rfl, String.append_assoc])
        (by rw [show ("Error 2: " : String) = "Error 2:" ++ " " from rfl, String.append_assoc])
      refine ⟨_, rfl, ?_, ?_⟩
      · simp only [init_message]
        rw [hnum]
        exact hm.1
      · simp only [init_message]
        rw [hnum]
        exact hm.2
  · refine ⟨by decide, ?_⟩
    refine ⟨_, rfl, ?_, ?_⟩ <;> rfl

/-- C2 witness: two concrete structural errors are folded into a single
raised error carrying both numbered segments. -/
theorem schema_error_aggregation_witness :
    ∃ agg : ValidationError,
      ConfigValidator.aggregate_schema_errors
        [ValidationError.init "invalid group name" none none,
         ValidationError.init "missing zabbix" none none]
        = .error (.validationError agg)
      ∧ strHasSub agg.message "Error 1:" = true
      ∧ strHasSub agg.message "Error 2:" = true :=
  schema_error_accumulation_and_aggregation.2.2.1 _ (by decide)

/-- C1: on the configuration of the extra-docs tolerance tests (alerts all
documented plus one extra wiki entry) the source emits an
extra-documentation ValidationError and `validate_config` raises it instead
of passing silently. -/
theorem extra_docs_error_raised_on_tolerant_config :
    CrossReferenceValidator.validate_alert_wiki_consistency extraDocsConfig
      = .ok [extraDocsError ["legacy_alert"]]
    ∧ ConfigValidator.validate_config_spec extraDocsConfig
      = .error (.validationError (extraDocsError ["legacy_alert"]))
    ∧ (extraDocsError ["legacy_alert"]).message
      = "Wiki documentation exists for undefined alerts: legacy_alert"
    ∧ schemaCheck extraDocsConfig = [] :=
  ⟨rfl, rfl, rfl, rfl⟩

/-- C5: construction loads the schema eagerly; a missing file raises
`Schema file not found: <path>`, while a present-but-unparsable file raises
a message that begins `Invalid JSON in schema file`, not the
`Invalid format in schema file` wording of the specification and of the
repository test suite. -/
theorem schema_load_construction_messages :
    (∀ path : String, ConfigValidator.construct path none
      = .error (.validationError (ValidationError.init
          ("Schema file not found: " ++ path) none
          (some ["Ensure the unified schema file exists at the expected path"]))))
    ∧ ConfigValidator.construct "invalid_schema.json"
        (some (.error "Expecting value: line 1 column 30 (char 29)"))
      = .error (.validationError (ValidationError.init
          "Invalid JSON in schema file: Expecting value: line 1 column 30 (char 29)"
          (some "invalid_schema.json")
          (some ["Check the schema file for valid JSON syntax"])))
    ∧ strHasPre "Invalid JSON in schema file: Expecting value: line 1 column 30 (char 29)"
        "Invalid format in schema file" = false :=
  ⟨fun _ => rfl, rfl, rfl⟩
